import Mathlib

/-!
Verification of the mern-cli-gen project scaffolding tool.

This file gives a shallow embedding, in Lean, of the template-resolution and
generation engine of the repository: the configuration data model
(`src/types/config.ts`), the context derivation and template path resolution
(`src/utils/templateUtils.ts`), the directory materializer
(`processTemplateDirectory`), the component generators
(`ClientGenerator.ts`, `ServerGenerator.ts`), the orchestrator
(`ProjectGenerator.ts`, including `cleanup`), the prompt-based configuration
resolution (`projectPrompts.ts`, `validation.ts`) and the CLI command skeleton
(`create.ts`).

Filesystem state is modelled as the list of absolute paths currently present;
file contents are strings; the EJS renderer is an abstract function parameter;
the on-disk template repository is a map from directory path to an optional
list of (relative path, content) pairs, `Option.none` meaning the directory is
missing.  Every definition is translated from the TypeScript source; the one
definition written from the specification text instead of the source is
`specCapitalize`, used to compare the source's display-name derivation against
the specified one.
-/

namespace Mern

/-! ## Character-list string primitives

JavaScript string operations used by the source (`endsWith`, `includes`,
`split`, `startsWith`, `replace(/\.ejs$/, ...)`) are embedded as explicit
recursions over the character list of a `String`. -/

/-- Source `startsWithChars pre cs` : `cs` begins with the character list `pre`
(JS `String.prototype.startsWith` at the char level). -/
def startsWithChars : List Char → List Char → Bool
  | [], _ => true
  | _ :: _, [] => false
  | a :: as, b :: bs => a = b && startsWithChars as bs

/-- Source `subOccurs needle hay` : `needle` occurs somewhere inside `hay`
(JS `String.prototype.includes` at the char level). -/
def subOccurs (needle : List Char) : List Char → Bool
  | [] => needle.isEmpty
  | c :: t => startsWithChars needle (c :: t) || subOccurs needle t

/-- JS `hay.includes(needle)`. -/
def strIncludes (hay needle : String) : Bool :=
  subOccurs needle.data hay.data

/-- JS `s.startsWith(pre)`. -/
def strStarts (s pre : String) : Bool :=
  startsWithChars pre.data s.data

/-- JS `s.endsWith('.ejs')` (the template-source marker test of
`processTemplateDirectory`). -/
def endsWithEjs (s : String) : Bool :=
  match s.data.reverse with
  | 's' :: 'j' :: 'e' :: '.' :: _ => true
  | _ => false

/-- JS `s.replace(/\.ejs$/, '')` : strip one trailing `.ejs` marker if
present, otherwise return the string unchanged. -/
def stripEjs (s : String) : String :=
  match s.data.reverse with
  | 's' :: 'j' :: 'e' :: '.' :: rest => String.mk rest.reverse
  | _ => s

/-- JS `str.split('-')` at the char level: splitting an empty list yields one
empty field; a separator always opens a new field. -/
def splitChar (sep : Char) : List Char → List (List Char)
  | [] => [[]]
  | c :: t =>
    let r := splitChar sep t
    if c = sep then [] :: r
    else
      match r with
      | [] => [[c]]
      | w :: ws => (c :: w) :: ws

/-- JS `word.charAt(0).toUpperCase() + word.slice(1)` at the char level. -/
def capFirstChars : List Char → List Char
  | [] => []
  | c :: cs => c.toUpper :: cs

/-- JS `Array.prototype.join(sep)` at the char level. -/
def joinWith (sep : List Char) : List (List Char) → List Char
  | [] => []
  | [w] => w
  | w :: ws => w ++ sep ++ joinWith sep ws

/-! ## Paths -/

/-- Source `path.join(a, b)` for clean segments (the source only joins
already-normalized segments). -/
def pathJoin2 (a b : String) : String :=
  a ++ "/" ++ b

/-- Predicate: `p` is the directory `root` itself or lies strictly inside it.  This is
the set of entries removed by `fs.remove(root)` (a recursive delete of the
whole subtree in one operation). -/
def isUnderOrEq (root p : String) : Bool :=
  p = root || startsWithChars (root.data ++ ['/']) p.data

/-- The in-memory filesystem: the list of absolute paths present on disk. -/
abbrev FsState := List String

/-- Source `fs-extra`'s `remove(dirPath)` : one recursive operation deleting the
directory and everything beneath it. -/
def removeDirectory (fs : FsState) (dirPath : String) : FsState :=
  fs.filter (fun p => !(isUnderOrEq dirPath p))

/-! ## Configuration data model (`src/types/config.ts`) -/

inductive GenerationMode
  | full
  | frontend
  | backend
deriving DecidableEq

inductive Language
  | typescript
  | javascript
deriving DecidableEq

inductive ModuleSystem
  | es6
  | vanilla
deriving DecidableEq

inductive Frontend
  | vite
  | nextjs
deriving DecidableEq

inductive Database
  | mongodb
  | postgresql
deriving DecidableEq

inductive Orm
  | mongoose
  | prisma
  | pg
  | none
deriving DecidableEq

inductive AuthType
  | jwt
  | session
  | oauth
  | passport
  | none
deriving DecidableEq

inductive StateManagement
  | zustand
  | redux
  | context
  | none
deriving DecidableEq

inductive PaymentProvider
  | stripe
  | paystack
  | mock
  | none
deriving DecidableEq

inductive CicdProvider
  | github
  | none
deriving DecidableEq

/-- String forms of the enum values, as they appear in template paths and
error messages (the TS enums are string literal unions). -/
def languageStr : Language → String
  | .typescript => "typescript"
  | .javascript => "javascript"

def moduleSystemStr : ModuleSystem → String
  | .es6 => "es6"
  | .vanilla => "vanilla"

def frontendStr : Frontend → String
  | .vite => "vite"
  | .nextjs => "nextjs"

def cicdStr : CicdProvider → String
  | .github => "github"
  | .none => "none"

/-- Source `ProjectConfig` (`src/types/config.ts`).  `orm` is optional in the TS
interface, hence `Option Orm` here. -/
structure ProjectConfig where
  projectName : String
  mode : GenerationMode
  language : Language
  moduleSystem : ModuleSystem
  frontend : Frontend
  database : Database
  orm : Option Orm
  auth : AuthType
  state : StateManagement
  docker : Bool
  payment : PaymentProvider
  tailwind : Bool
  git : Bool
  cicd : CicdProvider
  install : Bool
deriving DecidableEq

/-- Source `TemplateContext` (`src/types/config.ts`): the config spread plus derived
render-only fields; `orm` is re-assigned a resolved value by
`createTemplateContext`, so it is carried here next to the original config. -/
structure TemplateContext where
  toConfig : ProjectConfig
  orm : Orm
  projectNameCapitalized : String
  isTypeScript : Bool
  isES6 : Bool
  scriptExt : String
  reactExt : String
deriving DecidableEq

/-- Source `GeneratorResult` (`src/types/config.ts`). -/
structure GeneratorResult where
  success : Bool
  projectPath : String
  createdFiles : List String
  createdDirectories : List String
  errors : List String
deriving DecidableEq

/-! ## Context derivation (`src/utils/templateUtils.ts`) -/

/-- Source `capitalizeWords` (`templateUtils.ts` lines 27-32):
`str.split('-').map(w => w.charAt(0).toUpperCase() + w.slice(1)).join(' ')`. -/
def capitalizeWords (str : String) : String :=
  String.mk (joinWith [' '] ((splitChar '-' str.data).map capFirstChars))

/-- Source `createTemplateContext` (`templateUtils.ts` lines 9-22).  The TS
expression `config.orm || (config.database === 'mongodb' ? 'mongoose' :
'none')` keeps any present value (the string `'none'` is truthy) and only
falls back to the ternary when `orm` is unset. -/
def createTemplateContext (config : ProjectConfig) : TemplateContext :=
  let isTypeScript := config.language = Language.typescript
  let isES6 := config.moduleSystem = ModuleSystem.es6
  { toConfig := config
    orm := config.orm.getD (if config.database = Database.mongodb then Orm.mongoose else Orm.none)
    projectNameCapitalized := capitalizeWords config.projectName
    isTypeScript := isTypeScript
    isES6 := isES6
    scriptExt := if isTypeScript then "ts" else "js"
    reactExt := if isTypeScript then "tsx" else "jsx" }

/-! ## Template path resolution (`src/utils/templateUtils.ts`)

`getTemplatesDir()` resolves the package root on disk; it is passed in here
as the explicit parameter `templatesDir`. -/

/-- Source `getVariantPath` (`templateUtils.ts` lines 47-55). -/
def getVariantPath (config : ProjectConfig) : String :=
  if config.language = Language.typescript then "ts-es6"
  else if config.moduleSystem = ModuleSystem.es6 then "js-es6"
  else "js-vanilla"

/-- Source `getFrontendTemplatePath` (`templateUtils.ts` lines 60-64). -/
def getFrontendTemplatePath (templatesDir : String) (config : ProjectConfig) : String :=
  pathJoin2 (pathJoin2 (pathJoin2 templatesDir "client") (frontendStr config.frontend))
    (getVariantPath config)

/-- Source `getBackendTemplatePath` (`templateUtils.ts` lines 69-73). -/
def getBackendTemplatePath (templatesDir : String) (config : ProjectConfig) : String :=
  pathJoin2 (pathJoin2 (pathJoin2 templatesDir "server") "express") (getVariantPath config)

/-- Source `getCommonFrontendTemplatePath`. -/
def getCommonFrontendTemplatePath (templatesDir : String) : String :=
  pathJoin2 (pathJoin2 templatesDir "client") "common"

/-- Source `getCommonBackendTemplatePath`. -/
def getCommonBackendTemplatePath (templatesDir : String) : String :=
  pathJoin2 (pathJoin2 templatesDir "server") "common"

/-- Source `getRootTemplatePath`. -/
def getRootTemplatePath (templatesDir : String) : String :=
  pathJoin2 templatesDir "root"

/-- Source `getDockerTemplatePath`. -/
def getDockerTemplatePath (templatesDir : String) (type : String) : String :=
  pathJoin2 (pathJoin2 templatesDir "docker") type

/-- Source `getCicdTemplatePath`. -/
def getCicdTemplatePath (templatesDir : String) (provider : String) : String :=
  pathJoin2 (pathJoin2 templatesDir "cicd") provider

/-! ## Directory materializer (`templateUtils.ts`, `processTemplateDirectory`)

A template directory's contents are a list of `TFile` (path relative to the
template directory, file content).  The EJS renderer (`ejs.render`) is an
abstract function from template content and context to rendered content. -/

structure TFile where
  relPath : String
  content : String
deriving DecidableEq

instance {ε α : Type} [DecidableEq ε] [DecidableEq α] : DecidableEq (Except ε α) := fun a b =>
  match a, b with
  | Except.ok x, Except.ok y =>
    if h : x = y then isTrue (h ▸ rfl) else isFalse (fun hh => h (Except.ok.inj hh))
  | Except.error x, Except.error y =>
    if h : x = y then isTrue (h ▸ rfl) else isFalse (fun hh => h (Except.error.inj hh))
  | Except.ok _, Except.error _ => isFalse (fun hh => Except.noConfusion hh)
  | Except.error _, Except.ok _ => isFalse (fun hh => Except.noConfusion hh)

/-- The EJS renderer: template content × context → rendered content, or a
thrown `RenderError` (e.g. an undefined context reference). -/
abbrev Renderer := String → TemplateContext → Except String String

/-- One iteration of the `processTemplateDirectory` loop (lines 121-141):
the output filename is the relative path with the `.ejs` marker stripped; a
file carrying the marker is rendered against the context (propagating a
render throw), any other file is written with its content unchanged. -/
def materializeFile (render : Renderer) (context : TemplateContext) (f : TFile) :
    Except String TFile :=
  if endsWithEjs f.relPath then
    match render f.content context with
    | Except.ok c => Except.ok { relPath := stripEjs f.relPath, content := c }
    | Except.error e => Except.error e
  else Except.ok { relPath := stripEjs f.relPath, content := f.content }

/-- Source `processTemplateDirectory` (`templateUtils.ts` lines 113-145).  Returns
the `createdFiles` list exactly as the source does (the stripped relative
output names, in enumeration order) together with the absolute output paths
written under `outputDir`; a throw while processing one file carries the
message and the output paths already written for the earlier files.

NOTE (faithful to the source): this function accepts **no** inclusion
predicate.  The generators (`ServerGenerator`, `ClientGenerator`, and
`ProjectGenerator.generateRootFiles`) each construct a filter and pass it as
a fourth argument, but the function's signature has only three parameters,
so at run time the extra argument is dropped and every enumerated file is
processed. -/
def processTemplateDirectory (render : Renderer) (templateFiles : List TFile)
    (outputDir : String) (context : TemplateContext) :
    Except (String × List String) (List String × List String) :=
  match templateFiles with
  | [] => Except.ok ([], [])
  | f :: rest =>
    match materializeFile render context f with
    | Except.error e => Except.error (e, [])
    | Except.ok out =>
      match processTemplateDirectory render rest outputDir context with
      | Except.error (e, abs) => Except.error (e, pathJoin2 outputDir out.relPath :: abs)
      | Except.ok (names, abs) =>
        Except.ok (out.relPath :: names, pathJoin2 outputDir out.relPath :: abs)

/-! ## The generators' inclusion filters

These are the predicates the generators build and pass (in vain, see above)
to `processTemplateDirectory`. -/

/-- Source `serverFilter` (`ServerGenerator.ts` lines 46-65). -/
def serverFilter (config : ProjectConfig) (relativePath : String) : Bool :=
  if config.payment = PaymentProvider.none &&
      (strIncludes relativePath "controllers/paymentController" ||
       strIncludes relativePath "routes/payment" ||
       strIncludes relativePath "services/payment") then false
  else if config.auth = AuthType.none &&
      (strIncludes relativePath "controllers/authController" ||
       strIncludes relativePath "routes/auth" ||
       strIncludes relativePath "middleware/auth" ||
       strIncludes relativePath "config/passport" ||
       strIncludes relativePath "models/User" ||
       strIncludes relativePath "utils/authUtils") then false
  else true

/-- The `commonFilter` of `ServerGenerator.ts` lines 97-103: prisma files
only when the database is postgresql. -/
def commonServerFilter (config : ProjectConfig) (relativePath : String) : Bool :=
  !(strStarts relativePath "prisma" && config.database ≠ Database.postgresql)

/-- Source `clientFilter` (`ClientGenerator.ts` lines 50-60). -/
def clientFilter (config : ProjectConfig) (relativePath : String) : Bool :=
  if config.state ≠ StateManagement.context && strStarts relativePath "context/" then false
  else if (config.state = StateManagement.context || config.state = StateManagement.none) &&
      strStarts relativePath "store/" then false
  else true

/-- Source `rootFilter` (`ProjectGenerator.ts` lines 212-222). -/
def rootFilter (config : ProjectConfig) (relativePath : String) : Bool :=
  if strIncludes relativePath ".env.example" &&
      (config.mode = GenerationMode.full || config.mode = GenerationMode.backend) then false
  else if relativePath = "package.json" && config.mode = GenerationMode.backend then false
  else true

/-- The auth-only path markers named by the claim (the paths `serverFilter`
screens when `auth = 'none'`). -/
def containsAuthMarker (relativePath : String) : Bool :=
  strIncludes relativePath "controllers/authController" ||
  strIncludes relativePath "routes/auth" ||
  strIncludes relativePath "middleware/auth" ||
  strIncludes relativePath "config/passport" ||
  strIncludes relativePath "models/User" ||
  strIncludes relativePath "utils/authUtils"

/-- The payment path markers (the paths `serverFilter` screens when
`payment = 'none'`). -/
def containsPaymentMarker (relativePath : String) : Bool :=
  strIncludes relativePath "controllers/paymentController" ||
  strIncludes relativePath "routes/payment" ||
  strIncludes relativePath "services/payment"

/-! ## Environment

The ambient collaborators of the generators: the templates directory, the
process working directory, the EJS renderer, and the on-disk template
repository (directory path ↦ its files, `Option.none` when the directory is
missing — `directoryExists` is its `isSome`). -/

structure Env where
  templatesDir : String
  cwd : String
  render : Renderer
  templates : String → Option (List TFile)

/-- An existence-guarded materialization (`if (await directoryExists(p))
{ processTemplateDirectory(...) }`): a missing directory is skipped. -/
def processIfExists (env : Env) (dirPath outputDir : String) (context : TemplateContext) :
    Except (String × List String) (List String × List String) :=
  match env.templates dirPath with
  | Option.some files => processTemplateDirectory env.render files outputDir context
  | Option.none => Except.ok ([], [])

/-- Source `directoryExists` applied to a template directory path. -/
def templateDirExists (env : Env) (path : String) : Bool :=
  (env.templates path).isSome

/-- What a component generator reports back: the created relative paths (its
`createdFiles`) and the absolute paths it created on disk (output directory
plus written files). -/
structure StepOut where
  files : List String
  abs : List String
deriving DecidableEq

/-- Source `this.projectPath = absolutePath(joinPath(getCwd(), config.projectName))`
(`ProjectGenerator` constructor); with an absolute `cwd` the resolve is the
plain join. -/
def projectPathOf (env : Env) (config : ProjectConfig) : String :=
  pathJoin2 env.cwd config.projectName

/-! ## Component generators -/

/-- The `TemplateNotFoundError` message of `ClientGenerator.ts` lines 70-86. -/
def frontendNotFoundMsg (config : ProjectConfig) (variantPath : String) : String :=
  "Template not found for frontend configuration:\n" ++
  "  Frontend: " ++ frontendStr config.frontend ++ "\n" ++
  "  Language: " ++ languageStr config.language ++ "\n" ++
  "  Module System: " ++ moduleSystemStr config.moduleSystem ++ "\n" ++
  "  Expected path: " ++ variantPath ++ "\n\n" ++
  "Available template combinations: vite/ts-es6, vite/js-es6, vite/js-vanilla, nextjs/ts-es6\n" ++
  "Please check your configuration or ensure the template exists."

/-- The `TemplateNotFoundError` message of `ServerGenerator.ts` lines 78-91. -/
def backendNotFoundMsg (config : ProjectConfig) (variantPath : String) : String :=
  "Template not found for backend configuration:\n" ++
  "  Language: " ++ languageStr config.language ++ "\n" ++
  "  Module System: " ++ moduleSystemStr config.moduleSystem ++ "\n" ++
  "  Expected path: " ++ variantPath ++ "\n\n" ++
  "Available template combinations: express/ts-es6, express/js-es6, express/js-vanilla\n" ++
  "Please check your configuration or ensure the template exists."

/-- The output-path choice both generator constructors make: `client/` or
`server/` under the root for full-stack mode, the root itself otherwise. -/
def componentOutputPath (mode : GenerationMode) (projectPath sub : String) : String :=
  if mode = GenerationMode.full then pathJoin2 projectPath sub else projectPath

/-- The shared `generate()` body of `ClientGenerator` and `ServerGenerator`:
create the output directory, materialize the variant tree (throwing the
given not-found message when it is missing), then the existence-guarded
common tree, then — when Docker is on — the existence-guarded Docker tree.
On a throw the error carries the message and the absolute paths created
before the throw (the output directory is created first). -/
def componentGenerate (env : Env) (context : TemplateContext)
    (outputPath variantPath commonPath dockerPath notFound : String)
    (docker : Bool) : Except (String × List String) StepOut :=
  match env.templates variantPath with
  | Option.none => Except.error (notFound, [outputPath])
  | Option.some variantFiles =>
    match processTemplateDirectory env.render variantFiles outputPath context with
    | Except.error (e, abs) => Except.error (e, outputPath :: abs)
    | Except.ok (names1, abs1) =>
      match processIfExists env commonPath outputPath context with
      | Except.error (e, abs) => Except.error (e, outputPath :: (abs1 ++ abs))
      | Except.ok (names2, abs2) =>
        match (if docker then processIfExists env dockerPath outputPath context
               else Except.ok ([], [])) with
        | Except.error (e, abs) => Except.error (e, outputPath :: (abs1 ++ abs2 ++ abs))
        | Except.ok (names3, abs3) =>
          Except.ok
            { files := names1 ++ names2 ++ names3
              abs := outputPath :: (abs1 ++ abs2 ++ abs3) }

/-- Source `ClientGenerator.generate` (`ClientGenerator.ts`).  The `clientFilter`
built in the source is dropped by `processTemplateDirectory`, so every
variant file is materialized. -/
def clientGenerate (env : Env) (config : ProjectConfig) (context : TemplateContext)
    (projectPath : String) : Except (String × List String) StepOut :=
  componentGenerate env context
    (componentOutputPath config.mode projectPath "client")
    (getFrontendTemplatePath env.templatesDir config)
    (getCommonFrontendTemplatePath env.templatesDir)
    (getDockerTemplatePath env.templatesDir "client")
    (frontendNotFoundMsg config (getFrontendTemplatePath env.templatesDir config))
    config.docker

/-- Source `ServerGenerator.generate` (`ServerGenerator.ts`).  The `serverFilter`
and `commonFilter` built in the source are dropped by
`processTemplateDirectory`, so every variant/common file is materialized. -/
def serverGenerate (env : Env) (config : ProjectConfig) (context : TemplateContext)
    (projectPath : String) : Except (String × List String) StepOut :=
  componentGenerate env context
    (componentOutputPath config.mode projectPath "server")
    (getBackendTemplatePath env.templatesDir config)
    (getCommonBackendTemplatePath env.templatesDir)
    (getDockerTemplatePath env.templatesDir "server")
    (backendNotFoundMsg config (getBackendTemplatePath env.templatesDir config))
    config.docker

/-! ## Orchestrator (`ProjectGenerator.ts`) -/

/-- The mutable run state of a `ProjectGenerator` instance during one
`generate()` call: the accumulating `createdFiles`, `createdDirectories`,
the absolute paths created on disk, and the first caught error (present
exactly when some step threw). -/
structure RunAcc where
  files : List String
  dirs : List String
  abs : List String
  err : Option String
deriving DecidableEq

/-- Merge a component generator's outcome into the run state, as
`generateFullStack` / `generateFrontendOnly` / `generateBackendOnly` do:
created files are re-prefixed with `pre`, `dirPush` records the component
directory, and a throw stores the message and the paths created before it. -/
def applyStep (acc : RunAcc) (pre : String) (dirPush : List String)
    (step : Except (String × List String) StepOut) : RunAcc :=
  match step with
  | Except.ok out =>
    { acc with
      files := acc.files ++ out.files.map (fun f => pre ++ f)
      dirs := acc.dirs ++ dirPush
      abs := acc.abs ++ out.abs }
  | Except.error (e, abs) =>
    { acc with abs := acc.abs ++ abs, err := Option.some e }

/-- Source `generateSharedDirectory` (`ProjectGenerator.ts` lines 179-202): creates
`shared`, `shared/types`, `shared/utils` and writes `shared/index.{ext}`. -/
def sharedStep (context : TemplateContext) (projectPath : String) (acc : RunAcc) : RunAcc :=
  if acc.err.isSome then acc
  else
    let sharedPath := pathJoin2 projectPath "shared"
    let indexName := "index." ++ context.scriptExt
    { acc with
      files := acc.files ++ ["shared/" ++ indexName]
      dirs := acc.dirs ++ ["shared"]
      abs := acc.abs ++
        [sharedPath, pathJoin2 sharedPath "types", pathJoin2 sharedPath "utils",
         pathJoin2 sharedPath indexName] }

/-- The mode dispatch of `generate()` (lines 99-109): full runs client,
server and the shared step with `client/` / `server/` prefixes; the single
modes run one generator targeting the root with no prefix. -/
def modeStep (env : Env) (config : ProjectConfig) (context : TemplateContext)
    (projectPath : String) (acc : RunAcc) : RunAcc :=
  match config.mode with
  | GenerationMode.full =>
    if (applyStep acc "client/" ["client"]
        (clientGenerate env config context projectPath)).err.isSome then
      applyStep acc "client/" ["client"] (clientGenerate env config context projectPath)
    else
      sharedStep context projectPath
        (applyStep
          (applyStep acc "client/" ["client"] (clientGenerate env config context projectPath))
          "server/" ["server"] (serverGenerate env config context projectPath))
  | GenerationMode.frontend =>
    applyStep acc "" [] (clientGenerate env config context projectPath)
  | GenerationMode.backend =>
    applyStep acc "" [] (serverGenerate env config context projectPath)

/-- Source `generateRootFiles` (lines 207-246).  The `rootFilter` built in the
source is dropped by the three-parameter `processTemplateDirectory`.  The
root template directory is read unconditionally; its absence surfaces as a
filesystem error (`validateTemplates` has normally ruled this out). -/
def rootStep (env : Env) (config : ProjectConfig) (context : TemplateContext)
    (projectPath : String) (acc : RunAcc) : RunAcc :=
  if acc.err.isSome then acc
  else
    match env.templates (getRootTemplatePath env.templatesDir) with
    | Option.none =>
      { acc with err := Option.some ("ENOENT: no such file or directory, scandir " ++
          getRootTemplatePath env.templatesDir) }
    | Option.some rootFiles =>
      match processTemplateDirectory env.render rootFiles projectPath context with
      | Except.error (e, abs) =>
        { acc with abs := acc.abs ++ abs, err := Option.some e }
      | Except.ok (names1, abs1) =>
        if config.docker then
          match processIfExists env (getDockerTemplatePath env.templatesDir "root")
              projectPath context with
          | Except.error (e, abs) =>
            { acc with
              files := acc.files ++ names1
              abs := acc.abs ++ abs1 ++ abs
              err := Option.some e }
          | Except.ok (names2, abs2) =>
            { acc with files := acc.files ++ names1 ++ names2, abs := acc.abs ++ abs1 ++ abs2 }
        else { acc with files := acc.files ++ names1, abs := acc.abs ++ abs1 }

/-- Source `generateCicdFiles` (lines 251-268): no-op when the provider is `none`,
otherwise an existence-guarded materialization at the project root. -/
def cicdStep (env : Env) (config : ProjectConfig) (context : TemplateContext)
    (projectPath : String) (acc : RunAcc) : RunAcc :=
  if acc.err.isSome then acc
  else if config.cicd = CicdProvider.none then acc
  else
    match processIfExists env (getCicdTemplatePath env.templatesDir (cicdStr config.cicd))
        projectPath context with
    | Except.error (e, abs) => { acc with abs := acc.abs ++ abs, err := Option.some e }
    | Except.ok (names, abs) => { acc with files := acc.files ++ names, abs := acc.abs ++ abs }

/-- Source `validateTemplates` (`ProjectGenerator.ts` lines 43-72): collect the
missing required template directories and throw a single message when any
is absent. -/
def validateTemplates (env : Env) (config : ProjectConfig) : Option String :=
  let missing :=
    (if (config.mode = GenerationMode.full || config.mode = GenerationMode.frontend) &&
        !(templateDirExists env (getFrontendTemplatePath env.templatesDir config)) then
      ["Frontend: " ++ getFrontendTemplatePath env.templatesDir config]
    else []) ++
    (if (config.mode = GenerationMode.full || config.mode = GenerationMode.backend) &&
        !(templateDirExists env (getBackendTemplatePath env.templatesDir config)) then
      ["Backend: " ++ getBackendTemplatePath env.templatesDir config]
    else []) ++
    (if !(templateDirExists env (getRootTemplatePath env.templatesDir)) then
      ["Root: " ++ getRootTemplatePath env.templatesDir]
    else [])
  if missing.isEmpty then Option.none
  else
    Option.some ("Required templates not found:\n" ++
      String.intercalate "\n" (missing.map (fun t => "  - " ++ t)))

/-- The body of the `try` block after the scaffolding step: create the root
directory (recording `projectName` under `createdDirectories` and the
absolute root under the created paths), then mode dispatch, root files and
CI/CD files in sequence. -/
def runGeneration (env : Env) (config : ProjectConfig) (context : TemplateContext)
    (projectPath : String) : RunAcc :=
  let a0 : RunAcc := { files := [], dirs := [config.projectName], abs := [projectPath],
                       err := Option.none }
  let a1 := modeStep env config context projectPath a0
  let a2 := rootStep env config context projectPath a1
  cicdStep env config context projectPath a2

/-- The conflict message of `generate()` line 81. -/
def conflictMsg (config : ProjectConfig) : String :=
  "Directory \x22" ++ config.projectName ++ "\x22 already exists"

/-- Source `ProjectGenerator.generate` (`ProjectGenerator.ts` lines 77-136) over a
filesystem state: the existing-directory check, the template validation, the
guarded generation steps, and the catch-all that records the thrown message
and finalizes a failed result.  Returns the `GeneratorResult`, the new
filesystem, and the list of absolute paths this run created. -/
def generateFull (env : Env) (config : ProjectConfig) (fs : FsState) :
    GeneratorResult × FsState × List String :=
  let projectPath := projectPathOf env config
  let context := createTemplateContext config
  if fs.contains projectPath then
    ({ success := false, projectPath := projectPath, createdFiles := [],
       createdDirectories := [], errors := [conflictMsg config] }, fs, [])
  else
    match validateTemplates env config with
    | Option.some msg =>
      ({ success := false, projectPath := projectPath, createdFiles := [],
         createdDirectories := [], errors := [msg] }, fs, [])
    | Option.none =>
      let acc := runGeneration env config context projectPath
      match acc.err with
      | Option.some e =>
        ({ success := false, projectPath := projectPath, createdFiles := acc.files,
           createdDirectories := acc.dirs, errors := [e] }, fs ++ acc.abs, acc.abs)
      | Option.none =>
        ({ success := true, projectPath := projectPath, createdFiles := acc.files,
           createdDirectories := acc.dirs, errors := [] }, fs ++ acc.abs, acc.abs)

/-- Source `generate()` as its callers see it. -/
def generate (env : Env) (config : ProjectConfig) (fs : FsState) :
    GeneratorResult × FsState :=
  let r := generateFull env config fs
  (r.1, r.2.1)

/-- The absolute paths a `generate` run created. -/
def generateCreated (env : Env) (config : ProjectConfig) (fs : FsState) : List String :=
  (generateFull env config fs).2.2

/-- Source `ProjectGenerator.cleanup` (`ProjectGenerator.ts` lines 287-299): when
the destination exists, delegate to the recursive remove (re-throwing its
error); otherwise do nothing.  `rm` is the `removeDirectory` collaborator,
kept abstract so the guard's behavior is independent of it. -/
def cleanup (rm : FsState → String → Except String FsState)
    (fs : FsState) (projectPath : String) : Except String FsState :=
  if fs.contains projectPath then rm fs projectPath else Except.ok fs

/-- The concrete remover used by the orchestrator: `fs.remove`, which
deletes the whole subtree in one operation and (in this model) succeeds. -/
def okRemove (fs : FsState) (p : String) : Except String FsState :=
  Except.ok (removeDirectory fs p)

/-! ## The CLI command (`create.ts`, `createCommand`) -/

/-- The observable outcome of `createCommand`.  `process.exit(1)` paths are
distinguished by which check failed. -/
inductive CommandOutcome
  | invalidName
  | conflictExit (msg : String)
  | invalidOptions
  | cancelled
  | dryRunPreview
  | generationFailed (result : GeneratorResult)
  | completed (result : GeneratorResult)
deriving DecidableEq

/-- Source `createCommand` (`create.ts` lines 88-289), filesystem-relevant
skeleton.  In source order: project-name validation, the pre-flight
existing-directory check (lines 121-125, exiting before anything is
created), option validation, prompts (the resolved `config` is taken as
input here), the confirmation gate, the dry-run early return, then
`generator.generate()`; on a failed result the command performs
`generator.cleanup()` — swallowing a cleanup error (lines 230-237) — and
exits non-zero.  Post-success steps (git, install, `.env`) are external
collaborators and not modelled. -/
def createCommand (env : Env) (nameValid optionsValid dryRun confirmed : Bool)
    (config : ProjectConfig) (fs : FsState) : CommandOutcome × FsState :=
  if !nameValid then (CommandOutcome.invalidName, fs)
  else if fs.contains (projectPathOf env config) then
    (CommandOutcome.conflictExit (conflictMsg config), fs)
  else if !optionsValid then (CommandOutcome.invalidOptions, fs)
  else if dryRun then (CommandOutcome.dryRunPreview, fs)
  else if !confirmed then (CommandOutcome.cancelled, fs)
  else
    let r := generate env config fs
    if r.1.success then (CommandOutcome.completed r.1, r.2)
    else
      let fs2 :=
        match cleanup okRemove r.2 (projectPathOf env config) with
        | Except.ok v => v
        | Except.error _ => r.2
      (CommandOutcome.generationFailed r.1, fs2)

/-! ## Prompt-based configuration resolution
(`src/cli/prompts/projectPrompts.ts`, `src/utils/validation.ts`)

`CLIOptions` fields are `Option`s (`undefined` = `Option.none`).  What the
user would answer at each interactive prompt is collected in
`PromptAnswers`; `runProjectPrompts` consults an answer exactly when the
source would show that prompt. -/

structure CLIOptions where
  mode : Option GenerationMode
  typescript : Option Bool
  javascript : Option Bool
  es6 : Option Bool
  vanilla : Option Bool
  frontend : Option Frontend
  database : Option Database
  orm : Option Orm
  auth : Option AuthType
  state : Option StateManagement
  tailwind : Option Bool
  docker : Option Bool
  payment : Option PaymentProvider
  git : Option Bool
  cicd : Option CicdProvider
  install : Option Bool
  dryRun : Option Bool
  yes : Option Bool
deriving DecidableEq

/-- JS truthiness of an optional boolean flag: only a present `true` is
truthy. -/
def truthy : Option Bool → Bool
  | Option.some true => true
  | _ => false

/-- The user's would-be answers to the interactive prompts. -/
structure PromptAnswers where
  mode : GenerationMode
  language : Language
  moduleSystem : ModuleSystem
  frontend : Frontend
  state : StateManagement
  database : Database
  orm : Orm
  auth : AuthType
  docker : Bool
  payment : PaymentProvider
  tailwind : Bool
  git : Bool
  cicd : CicdProvider
  install : Bool
deriving DecidableEq

/-- Mode resolution (`projectPrompts.ts` lines 30-48). -/
def resolveMode (options : CLIOptions) (ans : PromptAnswers) : GenerationMode :=
  if !truthy options.yes && options.mode = Option.none then ans.mode
  else options.mode.getD GenerationMode.full

/-- Language resolution (lines 52-69). -/
def resolveLanguage (options : CLIOptions) (ans : PromptAnswers) : Language :=
  if !truthy options.yes && options.typescript = Option.none &&
      options.javascript = Option.none then ans.language
  else if truthy options.javascript then Language.javascript
  else Language.typescript

/-- Module-system resolution (lines 72-91): the prompt is only shown for
JavaScript; TypeScript always uses ES6. -/
def resolveModuleSystem (options : CLIOptions) (ans : PromptAnswers)
    (language : Language) : ModuleSystem :=
  if language = Language.javascript && options.es6 = Option.none &&
      options.vanilla = Option.none then ans.moduleSystem
  else if language = Language.typescript then ModuleSystem.es6
  else if truthy options.vanilla then ModuleSystem.vanilla
  else ModuleSystem.es6

/-- ORM/driver resolution (lines 153-175). -/
def resolveOrm (options : CLIOptions) (ans : PromptAnswers) (database : Database) : Orm :=
  if database = Database.mongodb then Orm.mongoose
  else if database = Database.postgresql then
    (if !truthy options.yes then ans.orm else options.orm.getD Orm.prisma)
  else Orm.none

/-- Source `runProjectPrompts` (`projectPrompts.ts` lines 20-298): assemble the
resolved `ProjectConfig` from flags and prompt answers, mirroring each
branch of the source in order. -/
def runProjectPrompts (projectName : String) (options : CLIOptions)
    (ans : PromptAnswers) : ProjectConfig :=
  let mode := resolveMode options ans
  let language := resolveLanguage options ans
  let moduleSystem := resolveModuleSystem options ans language
  -- frontend (lines 94-110)
  let frontend :=
    if !truthy options.yes && (mode = GenerationMode.full || mode = GenerationMode.frontend) then
      ans.frontend
    else options.frontend.getD Frontend.vite
  -- state management (lines 113-131)
  let state :=
    if !truthy options.yes && (mode = GenerationMode.full || mode = GenerationMode.frontend) then
      ans.state
    else options.state.getD StateManagement.zustand
  -- database (lines 134-150)
  let database :=
    if !truthy options.yes && (mode = GenerationMode.full || mode = GenerationMode.backend) then
      ans.database
    else options.database.getD Database.mongodb
  let orm := resolveOrm options ans database
  -- auth (lines 178-196)
  let auth :=
    if !truthy options.yes && (mode = GenerationMode.full || mode = GenerationMode.backend) then
      ans.auth
    else options.auth.getD AuthType.jwt
  -- docker (lines 199-211)
  let docker := if !truthy options.yes then ans.docker else options.docker.getD true
  -- payment (lines 214-232)
  let payment :=
    if !truthy options.yes && (mode = GenerationMode.full || mode = GenerationMode.backend) then
      ans.payment
    else options.payment.getD PaymentProvider.none
  -- tailwind (lines 235-247)
  let tailwind :=
    if !truthy options.yes && (mode = GenerationMode.full || mode = GenerationMode.frontend) then
      ans.tailwind
    else options.tailwind.getD true
  -- git (lines 250-262)
  let git := if !truthy options.yes then ans.git else options.git.getD true
  -- cicd (lines 265-281)
  let cicd := if !truthy options.yes then ans.cicd else options.cicd.getD CicdProvider.none
  -- install (lines 284-296)
  let install := if !truthy options.yes then ans.install else options.install.getD true
  { projectName := projectName, mode := mode, language := language,
    moduleSystem := moduleSystem, frontend := frontend, database := database,
    orm := Option.some orm, auth := auth, state := state, docker := docker,
    payment := payment, tailwind := tailwind, git := git, cicd := cicd,
    install := install }

/-- Source `ValidationResult` (`validation.ts`). -/
structure ValidationResult where
  valid : Bool
  errors : List String
  warnings : List String
deriving DecidableEq

/-- Source `validateOptions` (`validation.ts` lines 29-74): conflicting language or
module-system flags are errors; a vanilla flag under TypeScript and
mode-inappropriate flags are warnings only. -/
def validateOptions (options : CLIOptions) : ValidationResult :=
  let errors :=
    (if truthy options.typescript && truthy options.javascript then
      ["Cannot use both --typescript and --javascript"] else []) ++
    (if truthy options.es6 && truthy options.vanilla then
      ["Cannot use both --es6 and --vanilla"] else [])
  let mode := options.mode.getD GenerationMode.full
  let warnings :=
    (if truthy options.vanilla && truthy options.typescript then
      ["--vanilla is ignored when using TypeScript (ES6 is auto-selected)"] else []) ++
    (if mode = GenerationMode.frontend && (options.database).isSome then
      ["--database is ignored in frontend mode"] else []) ++
    (if mode = GenerationMode.frontend && (options.auth).isSome then
      ["--auth is ignored in frontend mode"] else []) ++
    (if mode = GenerationMode.backend && (options.frontend).isSome then
      ["--frontend is ignored in backend mode"] else []) ++
    (if mode = GenerationMode.backend && (options.state).isSome then
      ["--state is ignored in backend mode"] else [])
  { valid := errors.isEmpty, errors := errors, warnings := warnings }

/-! ## Specification-side definitions

`specCapitalize` is written from the specification's words ("display name is
the project name with separator characters replaced by spaces and each
resulting word's first letter capitalized"; the separator of these project
names is the hyphen): one pass over the characters, turning each separator
into a space and capitalizing the character at the start and after each
separator.  It is compared against the source's `capitalizeWords`. -/

def specCapGo : Bool → List Char → List Char
  | _, [] => []
  | atStart, c :: cs =>
    if c = '-' then ' ' :: specCapGo true cs
    else (if atStart then c.toUpper else c) :: specCapGo false cs

def specCapitalize (s : String) : String :=
  String.mk (specCapGo true s.data)

/-! ## Supporting lemmas -/

lemma startsWithChars_append (xs ys : List Char) : startsWithChars xs (xs ++ ys) = true := by
  induction xs with
  | nil => rfl
  | cons a as ih => simp [startsWithChars, ih]

lemma startsWithChars_iff (xs ys : List Char) :
    startsWithChars xs ys = true ↔ ∃ zs, ys = xs ++ zs := by
  induction xs generalizing ys with
  | nil => simp [startsWithChars]
  | cons a as ih =>
    cases ys with
    | nil => simp [startsWithChars]
    | cons b bs =>
      simp only [startsWithChars, Bool.and_eq_true, decide_eq_true_eq, ih, List.cons_append,
        List.cons.injEq]
      constructor
      · rintro ⟨rfl, zs, rfl⟩
        exact ⟨zs, rfl, rfl⟩
      · rintro ⟨zs, rfl, rfl⟩
        exact ⟨rfl, zs, rfl⟩

lemma pathJoin2_data (a b : String) : (pathJoin2 a b).data = a.data ++ '/' :: b.data := by
  simp [pathJoin2, String.data_append]

lemma isUnderOrEq_self (p : String) : isUnderOrEq p p = true := by
  simp [isUnderOrEq]

lemma isUnderOrEq_join (a b : String) : isUnderOrEq a (pathJoin2 a b) = true := by
  have h : (pathJoin2 a b).data = (a.data ++ ['/']) ++ b.data := by
    rw [pathJoin2_data]; simp
  unfold isUnderOrEq
  rw [h, startsWithChars_append]
  simp

lemma isUnderOrEq_trans {a b c : String} (h1 : isUnderOrEq a b = true)
    (h2 : isUnderOrEq b c = true) : isUnderOrEq a c = true := by
  simp only [isUnderOrEq, Bool.or_eq_true, decide_eq_true_eq, startsWithChars_iff] at h1 h2 ⊢
  rcases h1 with rfl | ⟨zs, hzs⟩
  · exact h2
  · rcases h2 with rfl | ⟨ws, hws⟩
    · exact Or.inr ⟨zs, hzs⟩
    · refine Or.inr ⟨zs ++ '/' :: ws, ?_⟩
      rw [hws, hzs]
      simp

lemma stripEjs_of_not_marker {s : String} (h : endsWithEjs s = false) : stripEjs s = s := by
  unfold stripEjs
  unfold endsWithEjs at h
  split
  · next rest heq => rw [heq] at h; simp at h
  · rfl

lemma stripEjs_append_marker {s : String} (h : endsWithEjs s = true) :
    stripEjs s ++ ".ejs" = s := by
  unfold endsWithEjs at h
  unfold stripEjs
  split
  · next rest heq =>
    apply String.ext
    rw [String.data_append]
    have hs : s.data = rest.reverse ++ ['.', 'e', 'j', 's'] := by
      have h2 := congrArg List.reverse heq
      rw [List.reverse_reverse] at h2
      rw [h2]
      simp
    rw [hs]
  · next hcontr =>
    exfalso
    revert h
    split
    · next rest heq => exact absurd heq (hcontr rest)
    · simp

lemma mem_removeDirectory {fs : FsState} {d p : String} :
    p ∈ removeDirectory fs d ↔ p ∈ fs ∧ isUnderOrEq d p = false := by
  simp [removeDirectory, List.mem_filter]

/-! The source's display-name derivation agrees with the specified one. -/

lemma splitChar_cons_shape (sep : Char) (cs : List Char) :
    ∃ w ws, splitChar sep cs = w :: ws := by
  cases cs with
  | nil => exact ⟨[], [], rfl⟩
  | cons c t =>
    unfold splitChar
    by_cases h : c = sep
    · simp [h]
    · rcases splitChar_cons_shape sep t with ⟨w, ws, hw⟩
      simp [h, hw]

lemma joinWith_cons_head (sep : List Char) (x : Char) (w : List Char)
    (rest : List (List Char)) :
    joinWith sep ((x :: w) :: rest) = x :: joinWith sep (w :: rest) := by
  cases rest with
  | nil => rfl
  | cons r rs => simp [joinWith]

lemma joinWith_nil_head (sep : List Char) (w : List Char) (rest : List (List Char)) :
    joinWith sep ([] :: w :: rest) = sep ++ joinWith sep (w :: rest) := by
  simp [joinWith]

lemma capFirstChars_nil : capFirstChars [] = [] := rfl

lemma capFirstChars_cons (c : Char) (cs : List Char) :
    capFirstChars (c :: cs) = c.toUpper :: cs := rfl

lemma specCapGo_dash (b : Bool) (cs : List Char) :
    specCapGo b ('-' :: cs) = ' ' :: specCapGo true cs := by
  simp [specCapGo]

lemma specCapGo_true_cons {c : Char} (h : ¬ c = '-') (cs : List Char) :
    specCapGo true (c :: cs) = c.toUpper :: specCapGo false cs := by
  simp [specCapGo, h]

lemma specCapGo_false_cons {c : Char} (h : ¬ c = '-') (cs : List Char) :
    specCapGo false (c :: cs) = c :: specCapGo false cs := by
  simp [specCapGo, h]

lemma capitalize_agrees (cs : List Char) (w : List Char) (ws : List (List Char))
    (hw : splitChar '-' cs = w :: ws) :
    joinWith [' '] ((w :: ws).map capFirstChars) = specCapGo true cs ∧
    joinWith [' '] (w :: ws.map capFirstChars) = specCapGo false cs := by
  induction cs generalizing w ws with
  | nil =>
    have hweq : w = [] ∧ ws = [] := by
      have h0 : ([[]] : List (List Char)) = w :: ws := hw
      simp at h0
      exact h0
    rcases hweq with ⟨rfl, rfl⟩
    exact ⟨rfl, rfl⟩
  | cons c t ih =>
    rcases splitChar_cons_shape '-' t with ⟨v, vs, hv⟩
    by_cases h : c = '-'
    · have hsplit : splitChar '-' (c :: t) = [] :: v :: vs := by
        unfold splitChar
        rw [if_pos h, hv]
      rw [hsplit] at hw
      have hweq : w = [] ∧ ws = v :: vs := by
        have h0 := hw.symm
        simp at h0
        exact h0
      rcases hweq with ⟨rfl, rfl⟩
      have iht := ih v vs hv
      subst h
      constructor
      · rw [List.map_cons, capFirstChars_nil, List.map_cons, joinWith_nil_head,
          ← List.map_cons, iht.1, specCapGo_dash]
        rfl
      · rw [List.map_cons, joinWith_nil_head, ← List.map_cons, iht.1, specCapGo_dash]
        rfl
    · have hsplit : splitChar '-' (c :: t) = (c :: v) :: vs := by
        unfold splitChar
        rw [if_neg h, hv]
      rw [hsplit] at hw
      have hweq : w = c :: v ∧ ws = vs := by
        have h0 := hw.symm
        simp at h0
        exact h0
      rcases hweq with ⟨rfl, rfl⟩
      have iht := ih v ws hv
      constructor
      · rw [List.map_cons, capFirstChars_cons, joinWith_cons_head, iht.2,
          specCapGo_true_cons h]
      · rw [joinWith_cons_head, iht.2, specCapGo_false_cons h]

lemma capitalizeWords_eq_spec (s : String) : capitalizeWords s = specCapitalize s := by
  unfold capitalizeWords specCapitalize
  rcases splitChar_cons_shape '-' s.data with ⟨w, ws, hw⟩
  rw [hw]
  exact congrArg String.mk (capitalize_agrees s.data w ws hw).1

/-! Every absolute path a generation run creates lies at or under the
directory it writes into; hence under the project root. -/

/-- The absolute paths written by a (possibly failed) materialization. -/
def ptdAbs : Except (String × List String) (List String × List String) → List String
  | Except.ok (_, abs) => abs
  | Except.error (_, abs) => abs

/-- The absolute paths created by a (possibly failed) component step. -/
def stepAbs : Except (String × List String) StepOut → List String
  | Except.ok o => o.abs
  | Except.error (_, abs) => abs

lemma ptd_abs_under (render : Renderer) (files : List TFile) (outputDir : String)
    (context : TemplateContext) :
    ∀ a ∈ ptdAbs (processTemplateDirectory render files outputDir context),
      isUnderOrEq outputDir a = true := by
  induction files with
  | nil => intro a ha; simp [processTemplateDirectory, ptdAbs] at ha
  | cons f rest ih =>
    intro a ha
    unfold processTemplateDirectory at ha
    rcases hm : materializeFile render context f with e | out
    · rw [hm] at ha
      simp [ptdAbs] at ha
    · rw [hm] at ha
      rcases hr : processTemplateDirectory render rest outputDir context with ⟨e, abs⟩ | ⟨names, abs⟩
      · rw [hr] at ha
        simp only [ptdAbs, List.mem_cons] at ha
        rcases ha with rfl | ha
        · exact isUnderOrEq_join outputDir out.relPath
        · have := ih a
          rw [hr] at this
          exact this ha
      · rw [hr] at ha
        simp only [ptdAbs, List.mem_cons] at ha
        rcases ha with rfl | ha
        · exact isUnderOrEq_join outputDir out.relPath
        · have := ih a
          rw [hr] at this
          exact this ha

lemma pie_abs_under (env : Env) (dirPath outputDir : String) (context : TemplateContext) :
    ∀ a ∈ ptdAbs (processIfExists env dirPath outputDir context),
      isUnderOrEq outputDir a = true := by
  intro a ha
  unfold processIfExists at ha
  rcases h : env.templates dirPath with _ | files
  · rw [h] at ha
    simp [ptdAbs] at ha
  · rw [h] at ha
    exact ptd_abs_under env.render files outputDir context a ha

lemma componentGenerate_abs_under (env : Env) (context : TemplateContext)
    (outputPath variantPath commonPath dockerPath notFound : String) (docker : Bool) :
    ∀ a ∈ stepAbs (componentGenerate env context outputPath variantPath commonPath
        dockerPath notFound docker),
      isUnderOrEq outputPath a = true := by
  intro a ha
  unfold componentGenerate at ha
  split at ha
  · simp only [stepAbs, List.mem_singleton] at ha
    rw [ha]
    exact isUnderOrEq_self outputPath
  · next variantFiles hv =>
    have hunder1 := ptd_abs_under env.render variantFiles outputPath context
    split at ha
    · next e1 abs h1 =>
      simp only [stepAbs, List.mem_cons] at ha
      rcases ha with rfl | ha
      · exact isUnderOrEq_self a
      · rw [h1] at hunder1
        exact hunder1 a ha
    · next names1 abs1 h1 =>
      rw [h1] at hunder1
      simp only [ptdAbs] at hunder1
      have hunder2 := pie_abs_under env commonPath outputPath context
      split at ha
      · next e2 abs h2 =>
        rw [h2] at hunder2
        simp only [ptdAbs] at hunder2
        simp only [stepAbs, List.mem_cons, List.mem_append] at ha
        rcases ha with rfl | ha | ha
        · exact isUnderOrEq_self a
        · exact hunder1 a ha
        · exact hunder2 a ha
      · next names2 abs2 h2 =>
        rw [h2] at hunder2
        simp only [ptdAbs] at hunder2
        have hunder3 : ∀ x ∈ ptdAbs (if docker then
            processIfExists env dockerPath outputPath context else Except.ok ([], [])),
            isUnderOrEq outputPath x = true := by
          intro x hx
          split at hx
          · exact pie_abs_under env dockerPath outputPath context x hx
          · simp [ptdAbs] at hx
        split at ha
        · next e3 abs h3 =>
          rw [h3] at hunder3
          simp only [ptdAbs] at hunder3
          simp only [stepAbs, List.mem_cons, List.mem_append] at ha
          rcases ha with rfl | ((ha | ha) | ha)
          · exact isUnderOrEq_self a
          · exact hunder1 a ha
          · exact hunder2 a ha
          · exact hunder3 a ha
        · next names3 abs3 h3 =>
          rw [h3] at hunder3
          simp only [ptdAbs] at hunder3
          simp only [stepAbs, List.mem_cons, List.mem_append] at ha
          rcases ha with rfl | ((ha | ha) | ha)
          · exact isUnderOrEq_self a
          · exact hunder1 a ha
          · exact hunder2 a ha
          · exact hunder3 a ha

lemma componentOutputPath_under (mode : GenerationMode) (projectPath sub : String) :
    isUnderOrEq projectPath (componentOutputPath mode projectPath sub) = true := by
  unfold componentOutputPath
  split
  · exact isUnderOrEq_join projectPath sub
  · exact isUnderOrEq_self projectPath

lemma clientGenerate_abs_under (env : Env) (config : ProjectConfig)
    (context : TemplateContext) (projectPath : String) :
    ∀ a ∈ stepAbs (clientGenerate env config context projectPath),
      isUnderOrEq projectPath a = true := by
  intro a ha
  exact isUnderOrEq_trans (componentOutputPath_under config.mode projectPath "client")
    (componentGenerate_abs_under env context _ _ _ _ _ _ a ha)

lemma serverGenerate_abs_under (env : Env) (config : ProjectConfig)
    (context : TemplateContext) (projectPath : String) :
    ∀ a ∈ stepAbs (serverGenerate env config context projectPath),
      isUnderOrEq projectPath a = true := by
  intro a ha
  exact isUnderOrEq_trans (componentOutputPath_under config.mode projectPath "server")
    (componentGenerate_abs_under env context _ _ _ _ _ _ a ha)

lemma applyStep_abs (acc : RunAcc) (pre : String) (dirPush : List String)
    (st : Except (String × List String) StepOut) :
    (applyStep acc pre dirPush st).abs = acc.abs ++ stepAbs st := by
  rcases st with ⟨e, abs⟩ | out
  · rfl
  · rfl

lemma applyStep_abs_under {pp : String} (acc : RunAcc) (pre : String)
    (dirPush : List String) (st : Except (String × List String) StepOut)
    (hacc : ∀ a ∈ acc.abs, isUnderOrEq pp a = true)
    (hst : ∀ a ∈ stepAbs st, isUnderOrEq pp a = true) :
    ∀ a ∈ (applyStep acc pre dirPush st).abs, isUnderOrEq pp a = true := by
  intro a ha
  rw [applyStep_abs] at ha
  rcases List.mem_append.mp ha with h | h
  · exact hacc a h
  · exact hst a h

lemma sharedStep_abs_under {pp : String} (context : TemplateContext) (acc : RunAcc)
    (hacc : ∀ a ∈ acc.abs, isUnderOrEq pp a = true) :
    ∀ a ∈ (sharedStep context pp acc).abs, isUnderOrEq pp a = true := by
  intro a ha
  unfold sharedStep at ha
  split at ha
  · exact hacc a ha
  · simp only [List.mem_append, List.mem_cons, List.mem_singleton,
      List.not_mem_nil, or_false] at ha
    have hshared : isUnderOrEq pp (pathJoin2 pp "shared") = true :=
      isUnderOrEq_join pp "shared"
    rcases ha with ha | rfl | rfl | rfl | rfl
    · exact hacc a ha
    · exact hshared
    · exact isUnderOrEq_trans hshared (isUnderOrEq_join (pathJoin2 pp "shared") "types")
    · exact isUnderOrEq_trans hshared (isUnderOrEq_join (pathJoin2 pp "shared") "utils")
    · exact isUnderOrEq_trans hshared
        (isUnderOrEq_join (pathJoin2 pp "shared") ("index." ++ context.scriptExt))

lemma modeStep_abs_under {pp : String} (env : Env) (config : ProjectConfig)
    (context : TemplateContext) (acc : RunAcc)
    (hacc : ∀ a ∈ acc.abs, isUnderOrEq pp a = true) :
    ∀ a ∈ (modeStep env config context pp acc).abs, isUnderOrEq pp a = true := by
  intro a ha
  unfold modeStep at ha
  split at ha
  · split at ha
    · exact applyStep_abs_under acc "client/" ["client"] _ hacc
        (clientGenerate_abs_under env config context pp) a ha
    · refine sharedStep_abs_under context _ ?_ a ha
      exact applyStep_abs_under _ "server/" ["server"] _
        (applyStep_abs_under acc "client/" ["client"] _ hacc
          (clientGenerate_abs_under env config context pp))
        (serverGenerate_abs_under env config context pp)
  · exact applyStep_abs_under acc "" [] _ hacc
      (clientGenerate_abs_under env config context pp) a ha
  · exact applyStep_abs_under acc "" [] _ hacc
      (serverGenerate_abs_under env config context pp) a ha

lemma rootStep_abs_under {pp : String} (env : Env) (config : ProjectConfig)
    (context : TemplateContext) (acc : RunAcc)
    (hacc : ∀ a ∈ acc.abs, isUnderOrEq pp a = true) :
    ∀ a ∈ (rootStep env config context pp acc).abs, isUnderOrEq pp a = true := by
  intro a ha
  unfold rootStep at ha
  split at ha
  · exact hacc a ha
  · split at ha
    · exact hacc a ha
    · next rootFiles hroot =>
      have hunder1 := ptd_abs_under env.render rootFiles pp context
      split at ha
      · next e1 abs h1 =>
        rw [h1] at hunder1
        simp only [ptdAbs] at hunder1
        rcases List.mem_append.mp ha with h | h
        · exact hacc a h
        · exact hunder1 a h
      · next names1 abs1 h1 =>
        rw [h1] at hunder1
        simp only [ptdAbs] at hunder1
        have hunder2 := pie_abs_under env (getDockerTemplatePath env.templatesDir "root")
          pp context
        split at ha
        · split at ha
          · next e2 abs h2 =>
            rw [h2] at hunder2
            simp only [ptdAbs] at hunder2
            simp only [List.append_assoc, List.mem_append] at ha
            rcases ha with h | h | h
            · exact hacc a h
            · exact hunder1 a h
            · exact hunder2 a h
          · next names2 abs2 h2 =>
            rw [h2] at hunder2
            simp only [ptdAbs] at hunder2
            simp only [List.append_assoc, List.mem_append] at ha
            rcases ha with h | h | h
            · exact hacc a h
            · exact hunder1 a h
            · exact hunder2 a h
        · simp only [List.mem_append] at ha
          rcases ha with h | h
          · exact hacc a h
          · exact hunder1 a h

lemma cicdStep_abs_under {pp : String} (env : Env) (config : ProjectConfig)
    (context : TemplateContext) (acc : RunAcc)
    (hacc : ∀ a ∈ acc.abs, isUnderOrEq pp a = true) :
    ∀ a ∈ (cicdStep env config context pp acc).abs, isUnderOrEq pp a = true := by
  intro a ha
  unfold cicdStep at ha
  split at ha
  · exact hacc a ha
  · split at ha
    · exact hacc a ha
    · have hunder := pie_abs_under env
        (getCicdTemplatePath env.templatesDir (cicdStr config.cicd)) pp context
      split at ha
      · next e1 abs h1 =>
        rw [h1] at hunder
        simp only [ptdAbs] at hunder
        rcases List.mem_append.mp ha with h | h
        · exact hacc a h
        · exact hunder a h
      · next names1 abs1 h1 =>
        rw [h1] at hunder
        simp only [ptdAbs] at hunder
        rcases List.mem_append.mp ha with h | h
        · exact hacc a h
        · exact hunder a h

lemma runGeneration_abs_under (env : Env) (config : ProjectConfig)
    (context : TemplateContext) (pp : String) :
    ∀ a ∈ (runGeneration env config context pp).abs, isUnderOrEq pp a = true := by
  unfold runGeneration
  refine cicdStep_abs_under env config context _ (rootStep_abs_under env config context _
    (modeStep_abs_under env config context _ ?_))
  intro a ha
  simp only [List.mem_singleton] at ha
  rw [ha]
  exact isUnderOrEq_self pp

lemma applyStep_abs_mem {p : String} (acc : RunAcc) (pre : String)
    (dirPush : List String) (st : Except (String × List String) StepOut)
    (h : p ∈ acc.abs) : p ∈ (applyStep acc pre dirPush st).abs := by
  rw [applyStep_abs]
  exact List.mem_append_left _ h

lemma sharedStep_abs_mem {p pp : String} (context : TemplateContext) (acc : RunAcc)
    (h : p ∈ acc.abs) : p ∈ (sharedStep context pp acc).abs := by
  unfold sharedStep
  split
  · exact h
  · exact List.mem_append_left _ h

lemma modeStep_abs_mem {p pp : String} (env : Env) (config : ProjectConfig)
    (context : TemplateContext) (acc : RunAcc)
    (h : p ∈ acc.abs) : p ∈ (modeStep env config context pp acc).abs := by
  unfold modeStep
  split
  · split
    · exact applyStep_abs_mem _ _ _ _ h
    · exact sharedStep_abs_mem _ _ (applyStep_abs_mem _ _ _ _ (applyStep_abs_mem _ _ _ _ h))
  · exact applyStep_abs_mem _ _ _ _ h
  · exact applyStep_abs_mem _ _ _ _ h

lemma rootStep_abs_mem {p pp : String} (env : Env) (config : ProjectConfig)
    (context : TemplateContext) (acc : RunAcc)
    (h : p ∈ acc.abs) : p ∈ (rootStep env config context pp acc).abs := by
  unfold rootStep
  split
  · exact h
  · split
    · exact h
    · split
      · exact List.mem_append_left _ h
      · split
        · split
          · simp only [List.append_assoc]
            exact List.mem_append_left _ h
          · simp only [List.append_assoc]
            exact List.mem_append_left _ h
        · exact List.mem_append_left _ h

lemma cicdStep_abs_mem {p pp : String} (env : Env) (config : ProjectConfig)
    (context : TemplateContext) (acc : RunAcc)
    (h : p ∈ acc.abs) : p ∈ (cicdStep env config context pp acc).abs := by
  unfold cicdStep
  split
  · exact h
  · split
    · exact h
    · split
      · exact List.mem_append_left _ h
      · exact List.mem_append_left _ h

lemma runGeneration_abs_root (env : Env) (config : ProjectConfig)
    (context : TemplateContext) (pp : String) :
    pp ∈ (runGeneration env config context pp).abs := by
  unfold runGeneration
  exact cicdStep_abs_mem env config context _ (rootStep_abs_mem env config context _
    (modeStep_abs_mem env config context _ (List.mem_singleton.mpr rfl)))

lemma resolveModuleSystem_typescript (options : CLIOptions) (ans : PromptAnswers) :
    resolveModuleSystem options ans Language.typescript = ModuleSystem.es6 := by
  simp [resolveModuleSystem]

lemma truthy_eq_some {x : Option Bool} (h : truthy x = true) : x = Option.some true := by
  rcases x with _ | b
  · simp [truthy] at h
  · rcases b
    · simp [truthy] at h
    · rfl

/-! ## Concrete evaluation inputs

A backend-only configuration with auth and payment disabled, and a template
repository whose backend variant tree carries an auth controller and a
payment route (as the repository's own templates do). -/

def authBugConfig : ProjectConfig :=
  { projectName := "api", mode := GenerationMode.backend,
    language := Language.typescript, moduleSystem := ModuleSystem.es6,
    frontend := Frontend.vite, database := Database.mongodb,
    orm := Option.some Orm.mongoose, auth := AuthType.none,
    state := StateManagement.zustand, docker := false,
    payment := PaymentProvider.none, tailwind := false, git := false,
    cicd := CicdProvider.none, install := false }

def authBugEnv : Env :=
  { templatesDir := "/tpl", cwd := "/work",
    render := fun c _ => Except.ok c,
    templates := fun p =>
      if p = "/tpl/server/express/ts-es6" then
        Option.some [{ relPath := "controllers/authController.ts.ejs", content := "A" },
                     { relPath := "routes/payment.ts.ejs", content := "P" },
                     { relPath := "src/index.ts.ejs", content := "I" }]
      else if p = "/tpl/root" then
        Option.some [{ relPath := "README.md.ejs", content := "R" }]
      else Option.none }

/-- A template repository whose root README template references an
undefined context field: its render throws mid-run, after the backend
files and the root package manifest were already written. -/
def renderFailEnv : Env :=
  { templatesDir := "/tpl", cwd := "/work",
    render := fun c _ =>
      if c = "BOOM" then Except.error "ReferenceError: oops is not defined"
      else Except.ok c,
    templates := fun p =>
      if p = "/tpl/server/express/ts-es6" then
        Option.some [{ relPath := "src/index.ts.ejs", content := "I" }]
      else if p = "/tpl/root" then
        Option.some [{ relPath := "package.json.ejs", content := "PKG" },
                     { relPath := "README.md.ejs", content := "BOOM" }]
      else Option.none }

/-! ## Claim theorems -/

/-- Claim C4. The variant key is a pure three-way function of
(language, moduleSystem): `ts-es6` whenever the language is TypeScript
(regardless of the module system), `js-es6` for JavaScript with ES6
modules, `js-vanilla` for JavaScript with vanilla modules; the frontend
template path is `templates-root/client/{frontend}/{variant}` and the
backend template path is `templates-root/server/express/{variant}`, with no
filesystem inspection (both are pure functions of the templates directory
and the configuration). -/
theorem variant_key_and_template_paths (templatesDir : String) (config : ProjectConfig) :
    (config.language = Language.typescript → getVariantPath config = "ts-es6")
  ∧ (config.language = Language.javascript → config.moduleSystem = ModuleSystem.es6 →
      getVariantPath config = "js-es6")
  ∧ (config.language = Language.javascript → config.moduleSystem = ModuleSystem.vanilla →
      getVariantPath config = "js-vanilla")
  ∧ getFrontendTemplatePath templatesDir config =
      templatesDir ++ "/client/" ++ frontendStr config.frontend ++ "/" ++ getVariantPath config
  ∧ getBackendTemplatePath templatesDir config =
      templatesDir ++ "/server/express/" ++ getVariantPath config := by
  refine ⟨?_, ?_, ?_, ?_, ?_⟩
  · intro h
    simp [getVariantPath, h]
  · intro h1 h2
    simp [getVariantPath, h1, h2]
  · intro h1 h2
    simp [getVariantPath, h1, h2]
  · unfold getFrontendTemplatePath pathJoin2
    apply String.ext
    simp [String.data_append,
      show ("/client/" : String).data = ['/', 'c', 'l', 'i', 'e', 'n', 't', '/'] from rfl,
      show ("/" : String).data = ['/'] from rfl,
      show ("client" : String).data = ['c', 'l', 'i', 'e', 'n', 't'] from rfl]
  · unfold getBackendTemplatePath pathJoin2
    apply String.ext
    simp [String.data_append,
      show ("/server/express/" : String).data =
        ['/', 's', 'e', 'r', 'v', 'e', 'r', '/', 'e', 'x', 'p', 'r', 'e', 's', 's', '/'] from rfl,
      show ("/" : String).data = ['/'] from rfl,
      show ("server" : String).data = ['s', 'e', 'r', 'v', 'e', 'r'] from rfl,
      show ("express" : String).data = ['e', 'x', 'p', 'r', 'e', 's', 's'] from rfl]

/-- Witness for `variant_key_and_template_paths` at concrete configurations. -/
theorem variant_key_and_template_paths_witness :
    getVariantPath
        { projectName := "a", mode := GenerationMode.full, language := Language.typescript,
          moduleSystem := ModuleSystem.vanilla, frontend := Frontend.vite,
          database := Database.mongodb, orm := Option.none, auth := AuthType.jwt,
          state := StateManagement.zustand, docker := false,
          payment := PaymentProvider.none, tailwind := false, git := false,
          cicd := CicdProvider.none, install := false } = "ts-es6"
  ∧ getVariantPath
        { projectName := "a", mode := GenerationMode.full, language := Language.javascript,
          moduleSystem := ModuleSystem.es6, frontend := Frontend.vite,
          database := Database.mongodb, orm := Option.none, auth := AuthType.jwt,
          state := StateManagement.zustand, docker := false,
          payment := PaymentProvider.none, tailwind := false, git := false,
          cicd := CicdProvider.none, install := false } = "js-es6"
  ∧ getVariantPath
        { projectName := "a", mode := GenerationMode.full, language := Language.javascript,
          moduleSystem := ModuleSystem.vanilla, frontend := Frontend.vite,
          database := Database.mongodb, orm := Option.none, auth := AuthType.jwt,
          state := StateManagement.zustand, docker := false,
          payment := PaymentProvider.none, tailwind := false, git := false,
          cicd := CicdProvider.none, install := false } = "js-vanilla"
  ∧ getFrontendTemplatePath "/tpl"
        { projectName := "a", mode := GenerationMode.full, language := Language.typescript,
          moduleSystem := ModuleSystem.vanilla, frontend := Frontend.nextjs,
          database := Database.mongodb, orm := Option.none, auth := AuthType.jwt,
          state := StateManagement.zustand, docker := false,
          payment := PaymentProvider.none, tailwind := false, git := false,
          cicd := CicdProvider.none, install := false } = "/tpl/client/nextjs/ts-es6" := by
  refine ⟨?_, ?_, ?_, ?_⟩
  · exact (variant_key_and_template_paths "/tpl" _).1 rfl
  · exact ((variant_key_and_template_paths "/tpl" _).2.1) rfl rfl
  · exact ((variant_key_and_template_paths "/tpl" _).2.2.1) rfl rfl
  · have h := (variant_key_and_template_paths "/tpl"
      { projectName := "a", mode := GenerationMode.full, language := Language.typescript,
        moduleSystem := ModuleSystem.vanilla, frontend := Frontend.nextjs,
        database := Database.mongodb, orm := Option.none, auth := AuthType.jwt,
        state := StateManagement.zustand, docker := false,
        payment := PaymentProvider.none, tailwind := false, git := false,
        cicd := CicdProvider.none, install := false }).2.2.2.1
    rw [h]
    decide

/-- Claim C5. Whenever the resolved configuration's language is TypeScript,
its module system is ES6, regardless of any conflicting vanilla/CommonJS
flag; moreover a TypeScript selection with a vanilla flag passes option
validation (the conflict is only a warning), so the resolution is reached. -/
theorem typescript_forces_es6 (projectName : String) (options : CLIOptions)
    (ans : PromptAnswers) :
    ((runProjectPrompts projectName options ans).language = Language.typescript →
      (runProjectPrompts projectName options ans).moduleSystem = ModuleSystem.es6)
  ∧ (truthy options.typescript = true → truthy options.javascript = false →
      (runProjectPrompts projectName options ans).language = Language.typescript
    ∧ (runProjectPrompts projectName options ans).moduleSystem = ModuleSystem.es6
    ∧ (truthy options.es6 = false → (validateOptions options).valid = true)) := by
  have hlang : (runProjectPrompts projectName options ans).language =
      resolveLanguage options ans := rfl
  have hms : (runProjectPrompts projectName options ans).moduleSystem =
      resolveModuleSystem options ans (resolveLanguage options ans) := rfl
  constructor
  · intro h
    rw [hlang] at h
    rw [hms, h]
    exact resolveModuleSystem_typescript options ans
  · intro hts hjs
    have hlv : resolveLanguage options ans = Language.typescript := by
      unfold resolveLanguage
      rw [truthy_eq_some hts]
      simp [hjs]
    refine ⟨by rw [hlang, hlv], ?_, ?_⟩
    · rw [hms, hlv]
      exact resolveModuleSystem_typescript options ans
    · intro hes6
      unfold validateOptions
      simp [hjs, hes6]

/-- Witness for `typescript_forces_es6`: an explicit `--typescript --vanilla`
flag set still resolves to ES6 and passes validation. -/
theorem typescript_forces_es6_witness :
    truthy (Option.some true) = true
  ∧ truthy (Option.none : Option Bool) = false
  ∧ ((runProjectPrompts "app"
      { mode := Option.none, typescript := Option.some true, javascript := Option.none,
        es6 := Option.none, vanilla := Option.some true, frontend := Option.none,
        database := Option.none, orm := Option.none, auth := Option.none,
        state := Option.none, tailwind := Option.none, docker := Option.none,
        payment := Option.none, git := Option.none, cicd := Option.none,
        install := Option.none, dryRun := Option.none, yes := Option.none }
      { mode := GenerationMode.full, language := Language.javascript,
        moduleSystem := ModuleSystem.vanilla, frontend := Frontend.vite,
        state := StateManagement.zustand, database := Database.mongodb,
        orm := Orm.prisma, auth := AuthType.jwt, docker := true,
        payment := PaymentProvider.none, tailwind := true, git := true,
        cicd := CicdProvider.none, install := true }).language = Language.typescript
    ∧ (runProjectPrompts "app"
      { mode := Option.none, typescript := Option.some true, javascript := Option.none,
        es6 := Option.none, vanilla := Option.some true, frontend := Option.none,
        database := Option.none, orm := Option.none, auth := Option.none,
        state := Option.none, tailwind := Option.none, docker := Option.none,
        payment := Option.none, git := Option.none, cicd := Option.none,
        install := Option.none, dryRun := Option.none, yes := Option.none }
      { mode := GenerationMode.full, language := Language.javascript,
        moduleSystem := ModuleSystem.vanilla, frontend := Frontend.vite,
        state := StateManagement.zustand, database := Database.mongodb,
        orm := Orm.prisma, auth := AuthType.jwt, docker := true,
        payment := PaymentProvider.none, tailwind := true, git := true,
        cicd := CicdProvider.none, install := true }).moduleSystem = ModuleSystem.es6
    ∧ (validateOptions
      { mode := Option.none, typescript := Option.some true, javascript := Option.none,
        es6 := Option.none, vanilla := Option.some true, frontend := Option.none,
        database := Option.none, orm := Option.none, auth := Option.none,
        state := Option.none, tailwind := Option.none, docker := Option.none,
        payment := Option.none, git := Option.none, cicd := Option.none,
        install := Option.none, dryRun := Option.none, yes := Option.none }).valid = true) := by
  refine ⟨by decide, by decide, ?_⟩
  have h := (typescript_forces_es6 "app"
      { mode := Option.none, typescript := Option.some true, javascript := Option.none,
        es6 := Option.none, vanilla := Option.some true, frontend := Option.none,
        database := Option.none, orm := Option.none, auth := Option.none,
        state := Option.none, tailwind := Option.none, docker := Option.none,
        payment := Option.none, git := Option.none, cicd := Option.none,
        install := Option.none, dryRun := Option.none, yes := Option.none }
      { mode := GenerationMode.full, language := Language.javascript,
        moduleSystem := ModuleSystem.vanilla, frontend := Frontend.vite,
        state := StateManagement.zustand, database := Database.mongodb,
        orm := Orm.prisma, auth := AuthType.jwt, docker := true,
        payment := PaymentProvider.none, tailwind := true, git := true,
        cicd := CicdProvider.none, install := true }).2 (by decide) (by decide)
  exact ⟨h.1, h.2.1, h.2.2 (by decide)⟩

/-- Claim C7 (amended). ORM defaulting in the prompt-based resolution:
mongodb → mongoose; postgresql → the prompt answer (interactive) or the
flag value with default prisma (`--yes`); any other database → none (there
is no other database value, so this branch is vacuous).  In the derived
TemplateContext, when `config.orm` is unset the default is mongoose for
mongodb and `none` for any *other* database — including postgresql, which
does not receive the fixed prisma default there. -/
theorem orm_defaulting (projectName : String) (options : CLIOptions)
    (ans : PromptAnswers) (config : ProjectConfig) :
    ((runProjectPrompts projectName options ans).database = Database.mongodb →
      (runProjectPrompts projectName options ans).orm = Option.some Orm.mongoose)
  ∧ ((runProjectPrompts projectName options ans).database = Database.postgresql →
      (runProjectPrompts projectName options ans).orm =
        Option.some (if truthy options.yes then options.orm.getD Orm.prisma else ans.orm))
  ∧ (config.orm = Option.none →
      (createTemplateContext config).orm =
        (if config.database = Database.mongodb then Orm.mongoose else Orm.none)) := by
  have horm : (runProjectPrompts projectName options ans).orm =
      Option.some (resolveOrm options ans
        ((runProjectPrompts projectName options ans).database)) := rfl
  refine ⟨?_, ?_, ?_⟩
  · intro h
    rw [horm, h]
    simp [resolveOrm]
  · intro h
    rw [horm, h]
    rcases ht : truthy options.yes
    · simp [resolveOrm, ht]
    · simp [resolveOrm, ht]
  · intro h
    simp [createTemplateContext, h]

/-- Counterexample to C7 as stated: a configuration with
`database = postgresql` and `orm` unset derives a TemplateContext whose
`orm` is `none`, not the fixed relational default `prisma`. -/
theorem context_orm_postgres_counterexample :
    ({ projectName := "shop", mode := GenerationMode.backend,
       language := Language.typescript, moduleSystem := ModuleSystem.es6,
       frontend := Frontend.vite, database := Database.postgresql,
       orm := Option.none, auth := AuthType.jwt, state := StateManagement.zustand,
       docker := false, payment := PaymentProvider.none, tailwind := false,
       git := false, cicd := CicdProvider.none,
       install := false } : ProjectConfig).database = Database.postgresql
  ∧ ({ projectName := "shop", mode := GenerationMode.backend,
       language := Language.typescript, moduleSystem := ModuleSystem.es6,
       frontend := Frontend.vite, database := Database.postgresql,
       orm := Option.none, auth := AuthType.jwt, state := StateManagement.zustand,
       docker := false, payment := PaymentProvider.none, tailwind := false,
       git := false, cicd := CicdProvider.none,
       install := false } : ProjectConfig).orm = Option.none
  ∧ (createTemplateContext
      { projectName := "shop", mode := GenerationMode.backend,
        language := Language.typescript, moduleSystem := ModuleSystem.es6,
        frontend := Frontend.vite, database := Database.postgresql,
        orm := Option.none, auth := AuthType.jwt, state := StateManagement.zustand,
        docker := false, payment := PaymentProvider.none, tailwind := false,
        git := false, cicd := CicdProvider.none, install := false }).orm = Orm.none
  ∧ ¬ (createTemplateContext
      { projectName := "shop", mode := GenerationMode.backend,
        language := Language.typescript, moduleSystem := ModuleSystem.es6,
        frontend := Frontend.vite, database := Database.postgresql,
        orm := Option.none, auth := AuthType.jwt, state := StateManagement.zustand,
        docker := false, payment := PaymentProvider.none, tailwind := false,
        git := false, cicd := CicdProvider.none, install := false }).orm = Orm.prisma := by
  decide

/-- Witness for `orm_defaulting` at concrete inputs (interactive postgresql
resolution takes the prompt answer; unset orm in the context defaults by
database). -/
theorem orm_defaulting_witness :
    (runProjectPrompts "db-app"
      { mode := Option.none, typescript := Option.some true, javascript := Option.none,
        es6 := Option.none, vanilla := Option.none, frontend := Option.none,
        database := Option.some Database.postgresql, orm := Option.none,
        auth := Option.none, state := Option.none, tailwind := Option.none,
        docker := Option.none, payment := Option.none, git := Option.none,
        cicd := Option.none, install := Option.none, dryRun := Option.none,
        yes := Option.some true }
      { mode := GenerationMode.backend, language := Language.typescript,
        moduleSystem := ModuleSystem.es6, frontend := Frontend.vite,
        state := StateManagement.zustand, database := Database.postgresql,
        orm := Orm.pg, auth := AuthType.jwt, docker := false,
        payment := PaymentProvider.none, tailwind := false, git := false,
        cicd := CicdProvider.none, install := false }).orm = Option.some Orm.prisma
  ∧ (createTemplateContext
      { projectName := "db-app", mode := GenerationMode.backend,
        language := Language.typescript, moduleSystem := ModuleSystem.es6,
        frontend := Frontend.vite, database := Database.mongodb,
        orm := Option.none, auth := AuthType.jwt, state := StateManagement.zustand,
        docker := false, payment := PaymentProvider.none, tailwind := false,
        git := false, cicd := CicdProvider.none, install := false }).orm = Orm.mongoose := by
  constructor
  · have h := (orm_defaulting "db-app"
      { mode := Option.none, typescript := Option.some true, javascript := Option.none,
        es6 := Option.none, vanilla := Option.none, frontend := Option.none,
        database := Option.some Database.postgresql, orm := Option.none,
        auth := Option.none, state := Option.none, tailwind := Option.none,
        docker := Option.none, payment := Option.none, git := Option.none,
        cicd := Option.none, install := Option.none, dryRun := Option.none,
        yes := Option.some true }
      { mode := GenerationMode.backend, language := Language.typescript,
        moduleSystem := ModuleSystem.es6, frontend := Frontend.vite,
        state := StateManagement.zustand, database := Database.postgresql,
        orm := Orm.pg, auth := AuthType.jwt, docker := false,
        payment := PaymentProvider.none, tailwind := false, git := false,
        cicd := CicdProvider.none, install := false }
      { projectName := "x", mode := GenerationMode.full, language := Language.typescript,
        moduleSystem := ModuleSystem.es6, frontend := Frontend.vite,
        database := Database.mongodb, orm := Option.none, auth := AuthType.jwt,
        state := StateManagement.zustand, docker := false,
        payment := PaymentProvider.none, tailwind := false, git := false,
        cicd := CicdProvider.none, install := false }).2.1 (by decide)
    rw [h]
    decide
  · have h := (orm_defaulting "db-app"
      { mode := Option.none, typescript := Option.none, javascript := Option.none,
        es6 := Option.none, vanilla := Option.none, frontend := Option.none,
        database := Option.none, orm := Option.none, auth := Option.none,
        state := Option.none, tailwind := Option.none, docker := Option.none,
        payment := Option.none, git := Option.none, cicd := Option.none,
        install := Option.none, dryRun := Option.none, yes := Option.none }
      { mode := GenerationMode.backend, language := Language.typescript,
        moduleSystem := ModuleSystem.es6, frontend := Frontend.vite,
        state := StateManagement.zustand, database := Database.postgresql,
        orm := Orm.pg, auth := AuthType.jwt, docker := false,
        payment := PaymentProvider.none, tailwind := false, git := false,
        cicd := CicdProvider.none, install := false }
      { projectName := "db-app", mode := GenerationMode.backend,
        language := Language.typescript, moduleSystem := ModuleSystem.es6,
        frontend := Frontend.vite, database := Database.mongodb,
        orm := Option.none, auth := AuthType.jwt, state := StateManagement.zustand,
        docker := false, payment := PaymentProvider.none, tailwind := false,
        git := false, cicd := CicdProvider.none, install := false }).2.2 rfl
    rw [h]
    decide

/-- Claim C8. Rollback is idempotent at the public interface: invoking
`cleanup` when the destination directory does not exist is a no-op that
completes without error (it returns `ok` with the filesystem unchanged,
whatever the underlying remover would have done). -/
theorem cleanup_nonexistent_noop (rm : FsState → String → Except String FsState)
    (fs : FsState) (projectPath : String)
    (h : fs.contains projectPath = false) :
    cleanup rm fs projectPath = Except.ok fs := by
  unfold cleanup
  rw [h]
  simp

/-- Witness for `cleanup_nonexistent_noop`: even with a remover that always
fails, cleaning up a missing destination succeeds and changes nothing. -/
theorem cleanup_nonexistent_noop_witness :
    (["/work/other"] : FsState).contains "/work/app" = false
  ∧ cleanup (fun _ _ => Except.error "EACCES: permission denied")
      ["/work/other"] "/work/app" = Except.ok ["/work/other"] := by
  exact ⟨by decide,
    cleanup_nonexistent_noop (fun _ _ => Except.error "EACCES: permission denied")
      ["/work/other"] "/work/app" (by decide)⟩

/-- Claim C9. The derived TemplateContext fields are pure functions of the
configuration: the capitalized display name equals the project name with
separators replaced by spaces and each resulting word's first letter
capitalized (the independently written `specCapitalize`), and the script
and component extensions are a two-way branch on the language only —
unchanged under any modification of the module system. -/
theorem derived_context_pure_functions (config : ProjectConfig) :
    (createTemplateContext config).projectNameCapitalized =
      specCapitalize config.projectName
  ∧ (createTemplateContext config).scriptExt =
      (if config.language = Language.typescript then "ts" else "js")
  ∧ (createTemplateContext config).reactExt =
      (if config.language = Language.typescript then "tsx" else "jsx")
  ∧ ∀ ms : ModuleSystem,
      (createTemplateContext { config with moduleSystem := ms }).scriptExt =
        (createTemplateContext config).scriptExt
    ∧ (createTemplateContext { config with moduleSystem := ms }).reactExt =
        (createTemplateContext config).reactExt
    ∧ (createTemplateContext { config with moduleSystem := ms }).projectNameCapitalized =
        (createTemplateContext config).projectNameCapitalized := by
  refine ⟨?_, ?_, ?_, ?_⟩
  · simp only [createTemplateContext]
    exact capitalizeWords_eq_spec config.projectName
  · simp [createTemplateContext]
  · simp [createTemplateContext]
  · intro ms
    refine ⟨?_, ?_, ?_⟩ <;> simp [createTemplateContext]

/-- Claim C6. A file enumerated by the materializer is parameterized (rendered
against the context) if and only if its name ends with the `.ejs` marker:
a non-marker file is emitted unchanged (same relative path, byte-for-byte
content), a marker file is emitted at the same relative path with the
marker stripped (appending `.ejs` to the output path recovers the source
path) and carries the rendered content; and the head of every successful
`processTemplateDirectory` run records exactly that output name and path. -/
theorem ejs_marker_materialization (render : Renderer) (context : TemplateContext)
    (f : TFile) :
    (endsWithEjs f.relPath = false → materializeFile render context f = Except.ok f)
  ∧ (∀ c, endsWithEjs f.relPath = true → render f.content context = Except.ok c →
      materializeFile render context f =
        Except.ok { relPath := stripEjs f.relPath, content := c }
    ∧ stripEjs f.relPath ++ ".ejs" = f.relPath)
  ∧ (∀ (rest : List TFile) (outputDir : String) (names abs : List String),
      processTemplateDirectory render (f :: rest) outputDir context =
        Except.ok (names, abs) →
      ∃ out names1 abs1, materializeFile render context f = Except.ok out ∧
        names = out.relPath :: names1 ∧ abs = pathJoin2 outputDir out.relPath :: abs1) := by
  refine ⟨?_, ?_, ?_⟩
  · intro h
    unfold materializeFile
    rw [h]
    simp [stripEjs_of_not_marker h]
  · intro c h hr
    constructor
    · unfold materializeFile
      rw [h, hr]
      simp
    · exact stripEjs_append_marker h
  · intro rest outputDir names abs h
    unfold processTemplateDirectory at h
    rcases hm : materializeFile render context f with e | out
    · rw [hm] at h
      simp at h
    · rw [hm] at h
      rcases hr : processTemplateDirectory render rest outputDir context
        with ⟨e2, a2⟩ | ⟨n2, a2⟩
      · rw [hr] at h
        simp at h
      · rw [hr] at h
        simp only [Except.ok.injEq, Prod.mk.injEq] at h
        exact ⟨out, n2, a2, rfl, h.1.symm, h.2.symm⟩

/-- Witness for `ejs_marker_materialization`: a static file copied
byte-for-byte, and a marker file rendered with its suffix stripped. -/
theorem ejs_marker_materialization_witness :
    (endsWithEjs "logo.png" = false
  ∧ materializeFile (fun c _ => Except.ok ("R:" ++ c)) (createTemplateContext authBugConfig)
      { relPath := "logo.png", content := "BYTES" } =
      Except.ok { relPath := "logo.png", content := "BYTES" })
  ∧ (endsWithEjs "server.ts.ejs" = true
  ∧ materializeFile (fun c _ => Except.ok ("R:" ++ c)) (createTemplateContext authBugConfig)
      { relPath := "server.ts.ejs", content := "SRC" } =
      Except.ok { relPath := stripEjs "server.ts.ejs", content := "R:SRC" }
  ∧ stripEjs "server.ts.ejs" ++ ".ejs" = "server.ts.ejs") := by
  refine ⟨⟨by decide, ?_⟩, ⟨by decide, ?_, ?_⟩⟩
  · exact (ejs_marker_materialization (fun c _ => Except.ok ("R:" ++ c))
      (createTemplateContext authBugConfig)
      { relPath := "logo.png", content := "BYTES" }).1 (by decide)
  · exact ((ejs_marker_materialization (fun c _ => Except.ok ("R:" ++ c))
      (createTemplateContext authBugConfig)
      { relPath := "server.ts.ejs", content := "SRC" }).2.1 "R:SRC" (by decide) rfl).1
  · exact ((ejs_marker_materialization (fun c _ => Except.ok ("R:" ++ c))
      (createTemplateContext authBugConfig)
      { relPath := "server.ts.ejs", content := "SRC" }).2.1 "R:SRC" (by decide) rfl).2

/-- Claim C2 (code bug). The backend generator builds `serverFilter` — which
would reject auth paths under `auth = 'none'` and payment paths under
`payment = 'none'` — but `processTemplateDirectory` has no filter
parameter, so the passed filter is dropped: a backend run over a variant
tree containing `controllers/authController.ts.ejs` and
`routes/payment.ts.ejs` with both features disabled emits both marker
paths, and the whole `generate()` run succeeds with those paths among its
created files. -/
theorem server_filter_dropped_on_materialization :
    authBugConfig.auth = AuthType.none
  ∧ authBugConfig.payment = PaymentProvider.none
  ∧ serverGenerate authBugEnv authBugConfig (createTemplateContext authBugConfig)
      (projectPathOf authBugEnv authBugConfig) =
      Except.ok
        { files := ["controllers/authController.ts", "routes/payment.ts", "src/index.ts"]
          abs := ["/work/api", "/work/api/controllers/authController.ts",
                  "/work/api/routes/payment.ts", "/work/api/src/index.ts"] }
  ∧ containsAuthMarker "controllers/authController.ts" = true
  ∧ containsPaymentMarker "routes/payment.ts" = true
  ∧ serverFilter authBugConfig "controllers/authController.ts" = false
  ∧ serverFilter authBugConfig "routes/payment.ts" = false
  ∧ (generate authBugEnv authBugConfig []).1.success = true
  ∧ (generate authBugEnv authBugConfig []).1.createdFiles.any containsAuthMarker = true
  ∧ (generate authBugEnv authBugConfig []).1.createdFiles.any containsPaymentMarker = true := by
  decide

/-- Claim C10. `generate()` is total at the orchestrator boundary: it always
returns a `GeneratorResult` (never propagates an exception); on success the
errors list is empty, and on failure the errors list holds exactly the one
recorded message. -/
theorem generate_result_total (env : Env) (config : ProjectConfig) (fs : FsState) :
    ((generate env config fs).1.success = true → (generate env config fs).1.errors = [])
  ∧ ((generate env config fs).1.success = false →
      ∃ e, (generate env config fs).1.errors = [e]) := by
  simp only [generate, generateFull]
  split
  · constructor
    · intro h
      simp at h
    · intro h
      exact ⟨conflictMsg config, rfl⟩
  · split
    · next msg hv =>
      constructor
      · intro h
        simp at h
      · intro h
        exact ⟨msg, rfl⟩
    · split
      · next e he =>
        constructor
        · intro h
          simp at h
        · intro h
          exact ⟨e, rfl⟩
      · constructor
        · intro h
          rfl
        · intro h
          simp at h

/-- Witness for `generate_result_total`: a successful run has an empty
errors list; a conflicting run fails with a single recorded message. -/
theorem generate_result_total_witness :
    (generate authBugEnv authBugConfig []).1.errors = []
  ∧ (∃ e, (generate authBugEnv authBugConfig ["/work/api"]).1.errors = [e]) :=
  ⟨(generate_result_total authBugEnv authBugConfig []).1 (by decide),
   (generate_result_total authBugEnv authBugConfig ["/work/api"]).2 (by decide)⟩

/-- Claim C3. When the destination directory already exists, `generate()`
fails immediately with the directory-conflict message, creating no paths
and leaving the filesystem exactly as it was; and the CLI command exits on
its pre-flight check with that same conflict, also leaving the filesystem
untouched (in particular no cleanup deletion reaches the pre-existing
directory). -/
theorem existing_directory_conflict (env : Env) (config : ProjectConfig) (fs : FsState)
    (h : fs.contains (projectPathOf env config) = true) :
    generate env config fs =
      ({ success := false, projectPath := projectPathOf env config, createdFiles := [],
         createdDirectories := [], errors := [conflictMsg config] }, fs)
  ∧ generateCreated env config fs = []
  ∧ ∀ optionsValid dryRun confirmed : Bool,
      createCommand env true optionsValid dryRun confirmed config fs =
        (CommandOutcome.conflictExit (conflictMsg config), fs) := by
  refine ⟨?_, ?_, ?_⟩
  · simp only [generate, generateFull]
    rw [h]
    simp
  · simp only [generateCreated, generateFull]
    rw [h]
    simp
  · intro optionsValid dryRun confirmed
    simp only [createCommand]
    rw [h]
    simp

/-- Witness for `existing_directory_conflict` at a concrete pre-existing
destination. -/
theorem existing_directory_conflict_witness :
    (["/work/api"] : FsState).contains (projectPathOf authBugEnv authBugConfig) = true
  ∧ generate authBugEnv authBugConfig ["/work/api"] =
      ({ success := false, projectPath := projectPathOf authBugEnv authBugConfig,
         createdFiles := [], createdDirectories := [],
         errors := [conflictMsg authBugConfig] }, ["/work/api"])
  ∧ createCommand authBugEnv true true false true authBugConfig ["/work/api"] =
      (CommandOutcome.conflictExit (conflictMsg authBugConfig), ["/work/api"]) := by
  have h := existing_directory_conflict authBugEnv authBugConfig ["/work/api"] (by decide)
  exact ⟨by decide, h.1, h.2.2 true false true⟩

/-- Claim C1. If any generation step throws during `generate()` on a fresh
destination, the run ends in the failed state with the thrown message as
the single recorded error, and the CLI command's failure handling removes
the entire destination root recursively: no path created by the failed run
survives, while every pre-existing path outside the destination root is
untouched. -/
theorem generation_failure_rolls_back (env : Env) (config : ProjectConfig) (fs : FsState)
    (hpre : fs.contains (projectPathOf env config) = false)
    (hfail : (generate env config fs).1.success = false) :
    ∃ e fs2,
      createCommand env true true false true config fs =
        (CommandOutcome.generationFailed (generate env config fs).1, fs2)
    ∧ (generate env config fs).1.errors = [e]
    ∧ (∀ p, p ∈ generateCreated env config fs → p ∉ fs2)
    ∧ (∀ p, p ∈ fs → isUnderOrEq (projectPathOf env config) p = false → p ∈ fs2) := by
  rcases hv : validateTemplates env config with _ | msg
  · -- template validation passed: failure must come from a later step
    rcases herr : (runGeneration env config (createTemplateContext config)
        (projectPathOf env config)).err with _ | e
    · -- no step error either: the run succeeded, contradicting hfail
      exfalso
      have hsucc : (generate env config fs).1.success = true := by
        simp only [generate, generateFull]
        rw [hpre, hv, herr]
        simp
      rw [hsucc] at hfail
      simp at hfail
    · -- a step threw e after the root directory was created
      have hgen : generateFull env config fs =
          ({ success := false, projectPath := projectPathOf env config,
             createdFiles := (runGeneration env config (createTemplateContext config)
               (projectPathOf env config)).files,
             createdDirectories := (runGeneration env config (createTemplateContext config)
               (projectPathOf env config)).dirs,
             errors := [e] },
           fs ++ (runGeneration env config (createTemplateContext config)
             (projectPathOf env config)).abs,
           (runGeneration env config (createTemplateContext config)
             (projectPathOf env config)).abs) := by
        simp only [generateFull]
        rw [hpre, hv, herr]
        simp
      have hgen2 : generate env config fs =
          ({ success := false, projectPath := projectPathOf env config,
             createdFiles := (runGeneration env config (createTemplateContext config)
               (projectPathOf env config)).files,
             createdDirectories := (runGeneration env config (createTemplateContext config)
               (projectPathOf env config)).dirs,
             errors := [e] },
           fs ++ (runGeneration env config (createTemplateContext config)
             (projectPathOf env config)).abs) := by
        simp only [generate]
        rw [hgen]
      have hcreated : generateCreated env config fs =
          (runGeneration env config (createTemplateContext config)
            (projectPathOf env config)).abs := by
        simp only [generateCreated]
        rw [hgen]
      have hppmem : projectPathOf env config ∈
          fs ++ (runGeneration env config (createTemplateContext config)
            (projectPathOf env config)).abs :=
        List.mem_append_right _ (runGeneration_abs_root env config
          (createTemplateContext config) (projectPathOf env config))
      have hcont : (fs ++ (runGeneration env config (createTemplateContext config)
          (projectPathOf env config)).abs).contains (projectPathOf env config) = true := by
        simpa using hppmem
      refine ⟨e, removeDirectory
        (fs ++ (runGeneration env config (createTemplateContext config)
          (projectPathOf env config)).abs) (projectPathOf env config), ?_, ?_, ?_, ?_⟩
      · simp only [createCommand]
        rw [hpre, hgen2]
        simp only [Bool.not_true, Bool.false_eq_true, if_false, if_true]
        unfold cleanup
        rw [hcont]
        simp [okRemove]
      · rw [hgen2]
      · intro p hp hmem
        rw [hcreated] at hp
        have hu : isUnderOrEq (projectPathOf env config) p = true :=
          runGeneration_abs_under env config (createTemplateContext config)
            (projectPathOf env config) p hp
        have hfalse := (mem_removeDirectory.mp hmem).2
        rw [hu] at hfalse
        simp at hfalse
      · intro p hp hnu
        exact mem_removeDirectory.mpr ⟨List.mem_append_left _ hp, hnu⟩
  · -- validateTemplates threw before anything was created
    have hgen : generateFull env config fs =
        ({ success := false, projectPath := projectPathOf env config, createdFiles := [],
           createdDirectories := [], errors := [msg] }, fs, []) := by
      simp only [generateFull]
      rw [hpre, hv]
      simp
    have hgen2 : generate env config fs =
        ({ success := false, projectPath := projectPathOf env config, createdFiles := [],
           createdDirectories := [], errors := [msg] }, fs) := by
      simp only [generate]
      rw [hgen]
    have hcreated : generateCreated env config fs = [] := by
      simp only [generateCreated]
      rw [hgen]
    refine ⟨msg, fs, ?_, ?_, ?_, ?_⟩
    · simp only [createCommand]
      rw [hpre, hgen2]
      simp only [Bool.not_true, Bool.false_eq_true, if_false, if_true]
      unfold cleanup
      rw [hpre]
      simp
    · rw [hgen2]
    · intro p hp
      rw [hcreated] at hp
      simp at hp
    · intro p hp _
      exact hp

/-- Witness for `generation_failure_rolls_back`: a run whose root README
template throws a render error after real files were created; the command
reports the failure and the rollback removes everything under the
destination root while keeping the unrelated pre-existing entry. -/
theorem generation_failure_rolls_back_witness :
    (["/keep"] : FsState).contains (projectPathOf renderFailEnv authBugConfig) = false
  ∧ (generate renderFailEnv authBugConfig ["/keep"]).1.success = false
  ∧ (generate renderFailEnv authBugConfig ["/keep"]).1.errors =
      ["ReferenceError: oops is not defined"]
  ∧ generateCreated renderFailEnv authBugConfig ["/keep"] =
      ["/work/api", "/work/api", "/work/api/src/index.ts", "/work/api/package.json"]
  ∧ (∃ e fs2,
      createCommand renderFailEnv true true false true authBugConfig ["/keep"] =
        (CommandOutcome.generationFailed
          (generate renderFailEnv authBugConfig ["/keep"]).1, fs2)
    ∧ (generate renderFailEnv authBugConfig ["/keep"]).1.errors = [e]
    ∧ (∀ p, p ∈ generateCreated renderFailEnv authBugConfig ["/keep"] → p ∉ fs2)
    ∧ (∀ p, p ∈ (["/keep"] : FsState) →
        isUnderOrEq (projectPathOf renderFailEnv authBugConfig) p = false → p ∈ fs2)) :=
  ⟨by decide, by decide, by decide, by decide,
   generation_failure_rolls_back renderFailEnv authBugConfig ["/keep"]
     (by decide) (by decide)⟩

end Mern
